import Mathlib

/- Verification of the MediaLive RTMP input provisioning scripts
   (aws_script/rtmp_new_input.py and aws_script/rtmp_quick.py).
   The Python code is shallowly embedded: strings are Lean String,
   the boto3 client and the interactive prompter are oracles passed
   in explicitly, and randomness (uuid, random suffixes) is an
   injected stream. -/

/-! ## String primitives mirroring the Python string operations used -/

/-- Whitespace test matching the characters Python str.strip removes. -/
def chIsSpace (c : Char) : Bool :=
  c = ' ' || c = '\t' || c = '\n' || c = '\r' || c = '\x0b' || c = '\x0c'

/-- Model of Python str.strip on a character list. -/
def chTrim (l : List Char) : List Char :=
  ((l.dropWhile chIsSpace).reverse.dropWhile chIsSpace).reverse

/-- Model of Python str.split(sep) with a single character separator:
splits at every occurrence, keeping empty pieces. -/
def chSplit (sep : Char) : List Char → List (List Char)
  | [] => [[]]
  | c :: cs =>
    let r := chSplit sep cs
    if c = sep then [] :: r
    else
      match r with
      | [] => [[c]]
      | t :: ts => (c :: t) :: ts

/-- Model of Python str.split(sep, 1) for a separator known to occur:
the part before the first separator and everything after it. -/
def chSplitFirst (sep : Char) : List Char → List Char × List Char
  | [] => ([], [])
  | c :: cs =>
    if c = sep then ([], cs)
    else
      let r := chSplitFirst sep cs
      (c :: r.1, r.2)

/-- Digits to a natural number, most significant first. -/
def digitsToNat (l : List Char) : Nat :=
  l.foldl (fun a c => a * 10 + (c.toNat - 48)) 0

/-- Model of Python int(str): optional surrounding whitespace, optional
sign, then a nonempty run of decimal digits. -/
def pyInt (l : List Char) : Option Int :=
  match chTrim l with
  | '-' :: r => if r ≠ [] ∧ r.all Char.isDigit then some (-(digitsToNat r : Int)) else none
  | '+' :: r => if r ≠ [] ∧ r.all Char.isDigit then some ((digitsToNat r : Int)) else none
  | t => if t ≠ [] ∧ t.all Char.isDigit then some ((digitsToNat t : Int)) else none

/-- Model of Python list indexing, including negative indices. -/
def pyIndex (xs : List String) (i : Int) : Option String :=
  if 0 ≤ i then xs.get? i.toNat
  else
    let j : Int := (xs.length : Int) + i
    if 0 ≤ j then xs.get? j.toNat else none

/-- Python truthiness of an optional string (argparse gives None or a string). -/
def truthyS : Option String → Bool
  | some s => s ≠ ""
  | none => false

/-- Python truthiness of an optional string list. -/
def truthyL : Option (List String) → Bool
  | some l => l ≠ []
  | none => false

/-- Model of the Python expression `a or b` on optional strings. -/
def pyOr (a b : Option String) : Option String :=
  if truthyS a then a else b

/-- Rendering of an optional string inside a Python f-string
(None renders as the text None). -/
def pyShow : Option String → String
  | some s => s
  | none => "None"

/-- Model of str.lower for the ASCII strings handled here. -/
def sLower (s : String) : String := ⟨s.data.map Char.toLower⟩

/-- Model of str.startswith. -/
def sStarts (s p : String) : Bool := p.data.isPrefixOf s.data

/-- Model of the Python test `c in s` for a character. -/
def sContains (s : String) (c : Char) : Bool := s.data.contains c

/-! ## Name resolution (rtmp_new_input.validate_name, rtmp_quick.generate_name) -/

/-- Characters accepted by the validation character class [a-zA-Z0-9_-]. -/
def isNameChar (c : Char) : Bool :=
  c.isAlpha || c.isDigit || c = '_' || c = '-'

/-- Characters drawn for the random suffix
(string.ascii_uppercase + string.digits). -/
def suffixChar (c : Char) : Bool := c.isUpper || c.isDigit

/-- Model of the check `re.match(r^[a-zA-Z0-9_-]+$, name)`: every character
is in the class, except that the Python dollar anchor also matches just
before a single trailing newline, so one final newline is tolerated. -/
def validName (s : String) : Bool :=
  if s.data.getLast? = some '\n' then
    s.data.dropLast ≠ [] && s.data.dropLast.all isNameChar
  else
    s.data ≠ [] && s.data.all isNameChar

/-- Outcome of rtmp_new_input.validate_name: a resolved name, the
ValueError for a malformed name (InvalidNameError in the spec taxonomy),
or the ValueError after three suffix attempts (NameResolutionError). -/
inductive NameResult
  | ok (name : String)
  | invalidName
  | resolutionError
  deriving DecidableEq, Repr

/-- Conflict-retry loop of validate_name (lines 38 to 48) against a fixed
existing-name list, with the random suffixes given as a stream indexed by
the attempt counter.  The recursion in the Python code increments attempt
while it is below 3, so at most 4 frames run; fuel 4 therefore makes the
recursion structural without changing its value.  On recursion the Python
function re-enters validate_name, which re-checks the name regex before
the membership test, mirrored here. -/
def validateGo (ex : List String) (suffixes : Nat → String) :
    Nat → String → Nat → NameResult
  | 0, _, _ => .resolutionError
  | fuel + 1, n, attempt =>
    if n ∈ ex then
      if attempt ≥ 3 then .resolutionError
      else
        let n2 := n ++ "-" ++ suffixes attempt
        if ¬ validName n2 then .invalidName
        else validateGo ex suffixes fuel n2 (attempt + 1)
    else .ok n

/-- Model of rtmp_new_input.validate_name (lines 29 to 51).  The boto3
list_inputs call is the `listInputs` oracle: `.ok` gives the existing
input names, `.error` a ClientError.  A ClientError is caught, a warning
printed, and the name returned unchanged (line 49 to 51). -/
def validate_name (listInputs : Except Unit (List String)) (suffixes : Nat → String)
    (freshUuid : String) (name : Option String) (attempt : Nat) : NameResult :=
  if ¬ truthyS name then .ok ("rtmp-input-" ++ freshUuid)
  else if ¬ validName (name.getD "") then .invalidName
  else
    match listInputs with
    | .error _ => .ok (name.getD "")
    | .ok ex => validateGo ex suffixes 4 (name.getD "") attempt

/-- Model of rtmp_quick.generate_name (lines 13 to 17): no validation and
no conflict check, one unconditional random suffix when a name is given. -/
def generate_name (freshUuid suffix : String) (name : Option String) : String :=
  if ¬ truthyS name then "rtmp-input-" ++ freshUuid
  else name.getD "" ++ "-" ++ suffix

/-- Shape asserted by claim C1: the desired name, one hyphen, then exactly
six uppercase-alphanumeric characters. -/
def singleSuffixShape (base s : String) : Bool :=
  sStarts s (base ++ "-") &&
  (s.data.drop (base.data.length + 1)).length == 6 &&
  (s.data.drop (base.data.length + 1)).all suffixChar

/-! ## Resource selection (rtmp_new_input.select_resources) -/

/-- Success test on an Except value. -/
def exOk {ε α : Type} : Except ε α → Bool
  | .ok _ => true
  | .error _ => false

/-- Model of one selection token of select_resources (lines 88 to 101):
after stripping, a token containing a hyphen is parsed as an inclusive
start-end range checked against 1 <= start <= end <= n (any other shape
of the hyphen split raises, as the Python unpacking does), and a token
without a hyphen is a single 1-based index checked against [1, n]. -/
def tokenIndices (n : Nat) (tok : List Char) : Except String (List Nat) :=
  let p := chTrim tok
  if p.contains '-' then
    match (chSplit '-' p).map pyInt with
    | [some s, some e] =>
      if 1 ≤ s ∧ s ≤ e ∧ e ≤ (n : Int) then
        Except.ok (List.range' s.toNat (e.toNat + 1 - s.toNat))
      else Except.error ("Invalid range: " ++ (⟨p⟩ : String))
    | _ => Except.error ("invalid literal for int: " ++ (⟨p⟩ : String))
  else
    match pyInt p with
    | some v =>
      if 1 ≤ v ∧ v ≤ (n : Int) then Except.ok [v.toNat]
      else Except.error ("Invalid selection: " ++ (⟨p⟩ : String))
    | none => Except.error ("invalid literal for int: " ++ (⟨p⟩ : String))

/-- Expansion of all comma-separated tokens, stopping at the first bad
token as the Python loop does. -/
def expandSelection (n : Nat) : List (List Char) → Except String (List Nat)
  | [] => Except.ok []
  | t :: ts =>
    match tokenIndices n t with
    | .error e => .error e
    | .ok here =>
      match expandSelection n ts with
      | .error e => .error e
      | .ok rest => .ok (here ++ rest)

/-- Model of the pure core of select_resources (lines 84 to 113): one
evaluation of the user selection expression against the candidate list.
The Python set of indices is realised as the ascending duplicate-free
filter of the index range; the enclosing interactive loop re-prompts on
any failure, including the below-minimum case, so a failure here is one
rejected attempt. -/
def select_resources (items : List String) (min_count : Nat) (selection : String) :
    Except String (List String) :=
  match expandSelection items.length (chSplit ',' selection.data) with
  | .error e => .error e
  | .ok idxList =>
    if ((List.range' 1 items.length).filter (fun i => idxList.contains i)).length <
        min_count then
      .error "below minimum count"
    else
      .ok (((List.range' 1 items.length).filter (fun i => idxList.contains i)).map
        (fun i => items.getD (i - 1) ""))

/-! ## Request builder data model -/

inductive SourceType
  | AWS
  | AWS_VPC
  | ON_PREMISES
  deriving DecidableEq, Repr

/-- Command-line arguments consumed by create_rtmp_input in both scripts
(argparse yields None for an absent option). -/
structure Args where
  name : Option String := none
  source_type : SourceType := .AWS
  app_name : Option String := none
  app_instance : Option String := none
  secondary_app_name : Option String := none
  secondary_app_instance : Option String := none
  security_group : Option String := none
  subnets : Option (List String) := none
  role_arn : Option String := none
  network : Option String := none
  static_ip : Option String := none
  network_routes : Option (List String) := none
  tags : Option (List String) := none

/-- Observable side effects of a builder run: an interactive prompt, or a
create_input_security_group call with its whitelist CIDRs and tags. -/
inductive Event
  | prompt
  | createSG (whitelist : List String) (tags : List (String × String))
  deriving DecidableEq, Repr

/-- Exceptions a builder run can raise (ValueError, IndexError, or a
sys.exit in the quick variant are all process-fatal). -/
inductive BuildError
  | invalidName
  | nameResolution
  | networkRequired
  | fatal
  deriving DecidableEq, Repr

structure Route where
  cidr : String
  gateway : Option String := none
  deriving DecidableEq, Repr

structure Destination where
  streamName : String
  network : Option String := none
  staticIp : Option String := none
  routes : Option (List Route) := none
  deriving DecidableEq, Repr

structure VpcConfig where
  subnetIds : List String := []
  securityGroupIds : List String := []
  deriving DecidableEq, Repr

/-- Assembled create_input request; an Option field models presence of
the corresponding key in the Python request dictionary. -/
structure InputRequest where
  name : String
  type : String
  inputNetworkLocation : String
  destinations : List Destination
  inputSecurityGroups : Option (List String)
  vpc : Option VpcConfig
  roleArn : Option String
  tags : Option (List (String × String))
  deriving DecidableEq, Repr

/-- Environment of one run: provider inventory, provider outcomes, the
random stream, and the values the operator would eventually type at each
interactive prompt. -/
structure Env where
  listInputs : Except Unit (List String)
  suffixes : Nat → String
  freshUuid : String
  availSubnets : List String
  availSGs : List String
  mlSGs : List String
  networks : List String
  cidrOk : String → Bool
  newSGId : String
  oracleSubnets : List String
  oracleSG : String
  oracleChoice : String
  oracleCidr : String
  oracleRole : String
  createdNetwork : Option String
  createNetworkQuick : Except Unit String

/-- Python dict insertion: an existing key keeps its position and gets
the new value, a new key is appended. -/
def dictInsert (d : List (String × String)) (k v : String) :
    List (String × String) :=
  if d.any (fun p => p.1 = k) then d.map (fun p => if p.1 = k then (k, v) else p)
  else d ++ [(k, v)]

/-- Model of the tag dict comprehension shared by both variants
(rtmp_new_input line 441, rtmp_quick line 67).  The comprehension clauses
nest left to right, so the unpacking of the equals-split into k and v
runs before the equals-sign guard: a token without an equals sign makes
the split return a one-element list and the unpacking raise ValueError,
aborting the run.  A token with an equals sign is split at the first one
and inserted; the trailing guard is then always true. -/
def parseTagsGo (d : List (String × String)) :
    List String → Except Unit (List (String × String))
  | [] => .ok d
  | tag :: rest =>
    if sContains tag '=' then
      parseTagsGo
        (dictInsert d ⟨(chSplitFirst '=' tag.data).1⟩ ⟨(chSplitFirst '=' tag.data).2⟩)
        rest
    else .error ()

/-- Entry point of the tag comprehension on the full token list. -/
def parseTagsE (tags : List String) : Except Unit (List (String × String)) :=
  parseTagsGo [] tags

/-- Model of the tags step (rtmp_new_input lines 439 to 441, rtmp_quick
lines 66 to 67): no Tags key when args.tags is falsy, otherwise the
parsed dictionary; a token lacking an equals sign raises ValueError. -/
def tagsField (argTags : Option (List String)) :
    Except Unit (Option (List (String × String))) :=
  if truthyL argTags then
    match parseTagsE (argTags.getD []) with
    | .error e => .error e
    | .ok d => .ok (some d)
  else .ok none

/-- Model of the route token parsing shared by both variants: a colon
splits the token once into CIDR and gateway, otherwise only the CIDR key
is present. -/
def parseRoute (r : String) : Route :=
  if sContains r ':' then
    { cidr := ⟨(chSplitFirst ':' r.data).1⟩, gateway := some ⟨(chSplitFirst ':' r.data).2⟩ }
  else { cidr := r }

/-- Destinations built from the primary and secondary app name and
instance (rtmp_new_input lines 235 to 238, rtmp_quick lines 60 to 63). -/
def mkDestinations (a ai sa sai : Option String) : List Destination :=
  [{ streamName := pyShow a ++ "/" ++ pyShow ai },
   { streamName := pyShow (pyOr sa a) ++ "/" ++ pyShow (pyOr sai ai) }]

/-! ## Branch models of rtmp_new_input.create_rtmp_input -/

/-- Model of the interactive security-group resolution shared by the
invalid-ID and no-ID cases of the AWS branch (lines 277 to 313 and 315 to
352): with existing MediaLive groups the operator picks an index or types
new and a CIDR for a tagged creation; with none, a tagged group is always
created from a prompted CIDR; a non-numeric choice other than new, or an
out-of-range index, raises. -/
def interactiveSGPick (mlSGs : List String) (oracleChoice oracleCidr newSGId : String) :
    Except BuildError (List String × List Event) :=
  if mlSGs ≠ [] then
    if sLower oracleChoice = "new" then
      .ok ([newSGId], [.prompt, .prompt, .createSG [oracleCidr] [("AutoCreated", "True")]])
    else
      match pyInt oracleChoice.data with
      | some k =>
        match pyIndex mlSGs (k - 1) with
        | some sgId => .ok ([sgId], [.prompt])
        | none => .error .fatal
      | none => .error .fatal
  else
    .ok ([newSGId], [.prompt, .createSG [oracleCidr] [("AutoCreated", "True")]])

/-- Model of the AWS branch (lines 248 to 352): a CIDR argument creates a
tagged security group directly; an sg-prefixed argument is checked
against the MediaLive inventory and used when found, otherwise a warning
and the interactive pick; any other or missing argument goes straight to
the interactive pick. -/
def awsBranchFull (mlSGs : List String) (cidrOk : String → Bool)
    (argSG : Option String) (oracleChoice oracleCidr newSGId : String) :
    Except BuildError (List String × List Event) :=
  if truthyS argSG && cidrOk (argSG.getD "") then
    .ok ([newSGId], [.createSG [argSG.getD ""] [("AutoCreated", "True")]])
  else if truthyS argSG && sStarts (argSG.getD "") "sg-" then
    if argSG.getD "" ∈ mlSGs then .ok ([argSG.getD ""], [])
    else interactiveSGPick mlSGs oracleChoice oracleCidr newSGId
  else interactiveSGPick mlSGs oracleChoice oracleCidr newSGId

/-- Model of the subnet resolution of the AWS_VPC branch (lines 357 to
373): two or more caller subnets with at least two valid keeps the first
two valid ones in caller order; otherwise an interactive selection
truncated to two, which returns an empty list without prompting when the
account has no subnets (select_resources lines 73 to 75). -/
def vpcSubnetsFull (availSubnets : List String) (argSubnets : Option (List String))
    (oracleSubnets : List String) : List String × List Event :=
  if truthyL argSubnets && (argSubnets.getD []).length ≥ 2 then
    if ((argSubnets.getD []).filter (fun s => s ∈ availSubnets)).length ≥ 2 then
      (((argSubnets.getD []).filter (fun s => s ∈ availSubnets)).take 2, [])
    else if availSubnets = [] then ([], [])
    else (oracleSubnets.take 2, [.prompt])
  else if availSubnets = [] then ([], [])
  else (oracleSubnets.take 2, [.prompt])

/-- Model of the security-group resolution of the AWS_VPC branch (lines
375 to 395): only a truthy sg-prefixed argument is considered; a known ID
is used as is; an unknown ID warns and forces an interactive pick, which
raises when the inventory is empty (select_resources returns an empty
list and the [0] indexing fails); no argument means no security group and
no prompt. -/
def vpcSGFull (availSGs : List String) (argSG : Option String) (oracleSG : String) :
    Except BuildError (List String × List Event) :=
  if truthyS argSG && sStarts (argSG.getD "") "sg-" then
    if argSG.getD "" ∈ availSGs then .ok ([argSG.getD ""], [])
    else if availSGs = [] then .error .fatal
    else .ok ([oracleSG], [.prompt])
  else .ok ([], [])

/-- Model of the role resolution of the AWS_VPC branch (line 398):
args.role_arn or an interactive prompt. -/
def vpcRoleFull (argRole : Option String) (oracleRole : String) : String × List Event :=
  if truthyS argRole then (argRole.getD "", []) else (oracleRole, [.prompt])

/-- Model of the network resolution of the ON_PREMISES branch (lines 400
to 423): a truthy argument is used verbatim without validation; otherwise
with existing networks the operator picks one by number or asks for a new
one (interactive creation can fail and yield no ID); with none a new
network is created interactively. -/
def onPremNetworkFull (networks : List String) (argNetwork : Option String)
    (oracleChoice : String) (createdNetwork : Option String) :
    Except BuildError (Option String × List Event) :=
  if truthyS argNetwork then .ok (argNetwork, [])
  else if networks ≠ [] then
    if sLower oracleChoice = "new" then .ok (createdNetwork, [.prompt, .prompt])
    else
      match pyInt oracleChoice.data with
      | some k =>
        match pyIndex networks (k - 1) with
        | some nid => .ok (some nid, [.prompt])
        | none => .error .fatal
      | none => .error .fatal
  else .ok (createdNetwork, [.prompt])

/-- Model of rtmp_new_input.create_rtmp_input (lines 202 to 448) in the
args-based path (the direct-config path bypasses the builder and is not
modelled).  The result pairs the assembled create_input request with the
trace of interactive prompts and security-group creations; a raised
exception is an error value. -/
def create_rtmp_input_full (env : Env) (args : Args) :
    Except BuildError (InputRequest × List Event) :=
  match validate_name env.listInputs env.suffixes env.freshUuid args.name 0 with
  | .invalidName => .error .invalidName
  | .resolutionError => .error .nameResolution
  | .ok input_name =>
    let location := if args.source_type = SourceType.ON_PREMISES then "ON_PREMISES" else "AWS"
    let dests : List Destination :=
      if truthyS args.app_name && truthyS args.app_instance then
        mkDestinations args.app_name args.app_instance
          args.secondary_app_name args.secondary_app_instance
      else []
    match args.source_type with
    | .AWS =>
      match awsBranchFull env.mlSGs env.cidrOk args.security_group
          env.oracleChoice env.oracleCidr env.newSGId with
      | .error e => .error e
      | .ok sgPart =>
        match tagsField args.tags with
        | .error _ => .error .fatal
        | .ok tf =>
          .ok ({ name := input_name, type := "RTMP_PUSH",
                 inputNetworkLocation := location, destinations := dests,
                 inputSecurityGroups := some sgPart.1, vpc := none, roleArn := none,
                 tags := tf }, sgPart.2)
    | .AWS_VPC =>
      match vpcSGFull env.availSGs args.security_group env.oracleSG with
      | .error e => .error e
      | .ok sgPart =>
        match tagsField args.tags with
        | .error _ => .error .fatal
        | .ok tf =>
          .ok ({ name := input_name, type := "RTMP_PUSH",
                 inputNetworkLocation := location, destinations := dests,
                 inputSecurityGroups := none,
                 vpc := some
                   { subnetIds :=
                       (vpcSubnetsFull env.availSubnets args.subnets env.oracleSubnets).1,
                     securityGroupIds := sgPart.1 },
                 roleArn := some (vpcRoleFull args.role_arn env.oracleRole).1,
                 tags := tf },
               (vpcSubnetsFull env.availSubnets args.subnets env.oracleSubnets).2 ++
                 sgPart.2 ++ (vpcRoleFull args.role_arn env.oracleRole).2)
    | .ON_PREMISES =>
      match onPremNetworkFull env.networks args.network env.oracleChoice
          env.createdNetwork with
      | .error e => .error e
      | .ok netPart =>
        if ¬ truthyS netPart.1 then .error .networkRequired
        else
          match tagsField args.tags with
          | .error _ => .error .fatal
          | .ok tf =>
            .ok ({ name := input_name, type := "RTMP_PUSH",
                   inputNetworkLocation := location,
                   destinations := dests.map (fun d =>
                     { d with network := some (netPart.1.getD ""),
                              staticIp :=
                                if truthyS args.static_ip then args.static_ip else none,
                              routes :=
                                if truthyL args.network_routes then
                                  some ((args.network_routes.getD []).map parseRoute)
                                else none }),
                   inputSecurityGroups := none, vpc := none, roleArn := none,
                   tags := tf }, netPart.2)

/-- Model of rtmp_quick.create_rtmp_input (lines 44 to 106) in the
args-based path.  The sys.exit calls are the fatal error value; the quick
variant never prompts. -/
def create_rtmp_input_quick (env : Env) (args : Args) :
    Except BuildError (InputRequest × List Event) :=
  let input_name := generate_name env.freshUuid (env.suffixes 0) args.name
  let location := if args.source_type = SourceType.ON_PREMISES then "ON_PREMISES" else "AWS"
  let dests := mkDestinations args.app_name args.app_instance
    args.secondary_app_name args.secondary_app_instance
  match tagsField args.tags with
  | .error _ => .error .fatal
  | .ok tagField =>
    match args.source_type with
    | .AWS =>
      if truthyS args.security_group && sStarts (args.security_group.getD "") "sg-" then
        .ok ({ name := input_name, type := "RTMP_PUSH", inputNetworkLocation := location,
               destinations := dests,
               inputSecurityGroups := some [args.security_group.getD ""],
               vpc := none, roleArn := none, tags := tagField }, [])
      else
        .ok ({ name := input_name, type := "RTMP_PUSH", inputNetworkLocation := location,
               destinations := dests, inputSecurityGroups := some [env.newSGId],
               vpc := none, roleArn := none, tags := tagField },
             [.createSG
                [if truthyS args.security_group then args.security_group.getD ""
                 else "0.0.0.0/0"]
                [("AutoCreated", "True")]])
    | .AWS_VPC =>
      if truthyL args.subnets = false ∨ (args.subnets.getD []).length < 2 then .error .fatal
      else
        .ok ({ name := input_name, type := "RTMP_PUSH", inputNetworkLocation := location,
               destinations := dests, inputSecurityGroups := none,
               vpc := some
                 { subnetIds := (args.subnets.getD []).take 2,
                   securityGroupIds :=
                     if truthyS args.security_group then [args.security_group.getD ""]
                     else [] },
               roleArn := args.role_arn, tags := tagField }, [])
    | .ON_PREMISES =>
      match (if truthyS args.network then Except.ok (args.network.getD "")
             else env.createNetworkQuick) with
      | .error _ => .error .fatal
      | .ok nid =>
        .ok ({ name := input_name, type := "RTMP_PUSH", inputNetworkLocation := location,
               destinations := dests.map (fun d =>
                 { d with network := some nid,
                          staticIp :=
                            if truthyS args.static_ip then args.static_ip else none,
                          routes :=
                            if truthyL args.network_routes then
                              some ((args.network_routes.getD []).map parseRoute)
                            else none }),
               inputSecurityGroups := none, vpc := none, roleArn := none,
               tags := tagField }, [])

/-! ## Event tagging and concrete fixtures -/

/-- Tag discipline of one event: any security-group creation carries the
AutoCreated=True tag. -/
def eventSGTagged : Event → Bool
  | .createSG _ tags => tags.contains ("AutoCreated", "True")
  | .prompt => true

/-- Concrete environment used by the witness instantiations. -/
def envW : Env :=
  { listInputs := Except.ok []
    suffixes := fun _ => "AAAAAA"
    freshUuid := "u"
    availSubnets := ["s-1", "s-3"]
    availSGs := ["sg-1"]
    mlSGs := []
    networks := []
    cidrOk := fun _ => false
    newSGId := "sgnew"
    oracleSubnets := []
    oracleSG := "x"
    oracleChoice := "1"
    oracleCidr := "c"
    oracleRole := "rr"
    createdNetwork := none
    createNetworkQuick := Except.error () }

/-- Concrete AWS_VPC arguments: three subnets of which two are valid in
envW, a valid security group and a role ARN. -/
def argsC2 : Args :=
  { name := none
    source_type := .AWS_VPC
    app_name := some "a"
    app_instance := some "b"
    security_group := some "sg-1"
    subnets := some ["s-1", "s-2", "s-3"]
    role_arn := some "r" }

/-- Concrete AWS_VPC arguments without a security group. -/
def argsC6 : Args :=
  { source_type := .AWS_VPC
    app_name := some "a"
    app_instance := some "b"
    subnets := some ["s1", "s2"] }

/-- Concrete quick-variant AWS arguments with no security group. -/
def argsC8 : Args :=
  { source_type := .AWS
    app_name := some "a"
    app_instance := some "b" }

/-- Arguments of argsC2 with the claim C9 tag vector added (one token
lacks an equals sign). -/
def argsC9full : Args :=
  { argsC2 with tags := some ["Key=Value", "NoEquals", "A=B=C"] }

/-- Arguments of argsC8 with the claim C9 tag vector added. -/
def argsC9quick : Args :=
  { argsC8 with tags := some ["Key=Value", "NoEquals", "A=B=C"] }

/-- Request the quick variant assembles for argsC8 in envW. -/
def reqC8 : InputRequest :=
  { name := "rtmp-input-u"
    type := "RTMP_PUSH"
    inputNetworkLocation := "AWS"
    destinations := [{ streamName := "a/b" }, { streamName := "a/b" }]
    inputSecurityGroups := some ["sgnew"]
    vpc := none
    roleArn := none
    tags := none }

/-! ## Helper lemmas about names -/

theorem data_ne_nil {n : String} (h : n ≠ "") : n.data ≠ [] :=
  fun hd => h (String.ext hd)

theorem validName_of_all (n : String) (h1 : n.data ≠ [])
    (h2 : n.data.all isNameChar = true) : validName n = true := by
  unfold validName
  by_cases h : n.data.getLast? = some '\n'
  · exfalso
    have hm : '\n' ∈ n.data := List.mem_of_mem_getLast? (by simp [h])
    have := List.all_eq_true.mp h2 _ hm
    exact absurd this (by decide)
  · simp [h, h1, h2]

theorem dash_all_nameChar : ("-" : String).data.all isNameChar = true := by decide

theorem all_append_nameChar (a s : String) (ha : a.data.all isNameChar = true)
    (hs : s.data.all isNameChar = true) :
    (a ++ "-" ++ s).data.all isNameChar = true := by
  simp [String.data_append, List.all_append, ha, hs, dash_all_nameChar]
  decide

theorem append_data_ne_nil (a s : String) (h : a.data ≠ []) :
    (a ++ "-" ++ s).data ≠ [] := by
  simp only [String.data_append, ne_eq, List.append_eq_nil]
  intro hc
  exact h hc.1.1

theorem validName_suffixed (a s : String) (h1 : a.data ≠ [])
    (h2 : a.data.all isNameChar = true) (hs : s.data.all isNameChar = true) :
    validName (a ++ "-" ++ s) = true :=
  validName_of_all _ (append_data_ne_nil a s h1) (all_append_nameChar a s h2 hs)

theorem isNameChar_of_suffixChar {c : Char} (h : suffixChar c = true) :
    isNameChar c = true := by
  simp only [suffixChar, Bool.or_eq_true] at h
  simp only [isNameChar, Char.isAlpha, Bool.or_eq_true]
  tauto

theorem all_nameChar_of_all_suffixChar (s : String)
    (h : s.data.all suffixChar = true) : s.data.all isNameChar = true := by
  rw [List.all_eq_true] at h ⊢
  exact fun c hc => isNameChar_of_suffixChar (h c hc)

theorem getLast?_eq_some_iff_concat (l : List Char) (a : Char) :
    l.getLast? = some a ↔ ∃ m, l = m ++ [a] := by
  constructor
  · intro h
    have hne : l ≠ [] := by intro hl; simp [hl] at h
    refine ⟨l.dropLast, ?_⟩
    have hsplit := List.dropLast_append_getLast hne
    have hg : l.getLast hne = a := by
      have he := List.getLast?_eq_getLast l hne
      rw [he] at h
      exact Option.some.inj h
    rw [hg] at hsplit
    exact hsplit.symm
  · rintro ⟨m, rfl⟩
    exact List.getLast?_concat m

theorem validateGo_succ (ex : List String) (sfx : Nat → String) (fuel : Nat)
    (n : String) (attempt : Nat) :
    validateGo ex sfx (fuel + 1) n attempt =
      if n ∈ ex then
        if attempt ≥ 3 then NameResult.resolutionError
        else if ¬ validName (n ++ "-" ++ sfx attempt) then NameResult.invalidName
        else validateGo ex sfx fuel (n ++ "-" ++ sfx attempt) (attempt + 1)
      else NameResult.ok n := rfl

/-! ## Claim theorems for the name resolver -/

/-- C5: a supplied name consisting only of characters in [A-Za-z0-9_-]
that is absent from the existing-name set is returned unchanged by
validate_name. -/
theorem C5_resolve_unchanged (ex : List String) (sfx : Nat → String) (u n : String)
    (h1 : n ≠ "") (h2 : n.data.all isNameChar = true) (h3 : n ∉ ex) :
    validate_name (Except.ok ex) sfx u (some n) 0 = NameResult.ok n := by
  have hv : validName n = true := validName_of_all n (data_ne_nil h1) h2
  simp [validate_name, truthyS, h1, hv, validateGo, h3]

/-- C5 witness at a concrete input. -/
theorem C5_witness :
    validate_name (Except.ok ["other"]) (fun _ => "AAAAAA") "u" (some "abc") 0 =
      NameResult.ok "abc" :=
  C5_resolve_unchanged ["other"] (fun _ => "AAAAAA") "u" "abc"
    (by decide) (by decide) (by decide)

/-- C7 counterexample: when the provider list-inputs call fails, the
resolver does not surface the error; it silently succeeds with the
unchecked name, refuting the claim. -/
theorem C7_counterexample :
    validate_name (Except.error ()) (fun _ => "AAAAAA") "u" (some "a") 0 =
      NameResult.ok "a" := by decide

/-- C7 (amended): when the provider list-inputs call fails during the
name-conflict check, validate_name catches the provider error, prints a
warning, and returns the regex-validated name unchanged without any
conflict check; the error is not surfaced and no retry happens. -/
theorem C7_provider_error_swallowed (sfx : Nat → String) (u n : String) (att : Nat)
    (h1 : n ≠ "") (h2 : validName n = true) :
    validate_name (Except.error ()) sfx u (some n) att = NameResult.ok n := by
  simp [validate_name, truthyS, h1, h2]

/-- C7 witness at a concrete input. -/
theorem C7_witness :
    validate_name (Except.error ()) (fun _ => "BBBBBB") "u" (some "xyz") 2 =
      NameResult.ok "xyz" :=
  C7_provider_error_swallowed (fun _ => "BBBBBB") "u" "xyz" 2 (by decide) (by decide)

/-- C1 counterexample: with the desired name and its first suffixed
candidate both taken, the resolver succeeds only after a second retry and
returns a doubly suffixed name, which is not of the claimed form
base-XXXXXX (the suffixes accumulate across attempts). -/
theorem C1_counterexample :
    validate_name (Except.ok ["a", "a-AAAAAA"])
        (fun i => if i = 0 then "AAAAAA" else "BBBBBB") "u" (some "a") 0 =
      NameResult.ok "a-AAAAAA-BBBBBB" ∧
    singleSuffixShape "a" "a-AAAAAA-BBBBBB" = false ∧
    "a-AAAAAA-BBBBBB" ∉ ["a", "a-AAAAAA"] := by decide

/-- C1 (amended): for a valid desired name that is already taken,
validate_name draws up to three fresh random suffixes, appending each to
the previously tried name (so the k-th candidate carries k suffix blocks,
not one), returns the first candidate absent from the existing-name set,
and fails with the name-resolution error when all three candidates are
taken. -/
theorem C1_conflict_retry (ex : List String) (sfx : Nat → String) (u n : String)
    (h1 : n ≠ "") (h2 : n.data.all isNameChar = true) (hmem : n ∈ ex)
    (hsfx : ∀ i, (sfx i).length = 6 ∧ (sfx i).data.all suffixChar = true) :
    (n ++ "-" ++ sfx 0 ∉ ex ∧
       validate_name (Except.ok ex) sfx u (some n) 0 =
         NameResult.ok (n ++ "-" ++ sfx 0)) ∨
    (n ++ "-" ++ sfx 0 ∈ ex ∧ n ++ "-" ++ sfx 0 ++ "-" ++ sfx 1 ∉ ex ∧
       validate_name (Except.ok ex) sfx u (some n) 0 =
         NameResult.ok (n ++ "-" ++ sfx 0 ++ "-" ++ sfx 1)) ∨
    (n ++ "-" ++ sfx 0 ∈ ex ∧ n ++ "-" ++ sfx 0 ++ "-" ++ sfx 1 ∈ ex ∧
       n ++ "-" ++ sfx 0 ++ "-" ++ sfx 1 ++ "-" ++ sfx 2 ∉ ex ∧
       validate_name (Except.ok ex) sfx u (some n) 0 =
         NameResult.ok (n ++ "-" ++ sfx 0 ++ "-" ++ sfx 1 ++ "-" ++ sfx 2)) ∨
    (n ++ "-" ++ sfx 0 ∈ ex ∧ n ++ "-" ++ sfx 0 ++ "-" ++ sfx 1 ∈ ex ∧
       n ++ "-" ++ sfx 0 ++ "-" ++ sfx 1 ++ "-" ++ sfx 2 ∈ ex ∧
       validate_name (Except.ok ex) sfx u (some n) 0 =
         NameResult.resolutionError) := by
  have hvn : validName n = true := validName_of_all n (data_ne_nil h1) h2
  have hs0 := all_nameChar_of_all_suffixChar _ (hsfx 0).2
  have hs1 := all_nameChar_of_all_suffixChar _ (hsfx 1).2
  have hs2 := all_nameChar_of_all_suffixChar _ (hsfx 2).2
  have hd1 : (n ++ "-" ++ sfx 0).data ≠ [] := append_data_ne_nil _ _ (data_ne_nil h1)
  have ha1 : (n ++ "-" ++ sfx 0).data.all isNameChar = true :=
    all_append_nameChar _ _ h2 hs0
  have hv1 : validName (n ++ "-" ++ sfx 0) = true := validName_of_all _ hd1 ha1
  have hd2 : (n ++ "-" ++ sfx 0 ++ "-" ++ sfx 1).data ≠ [] := append_data_ne_nil _ _ hd1
  have ha2 : (n ++ "-" ++ sfx 0 ++ "-" ++ sfx 1).data.all isNameChar = true :=
    all_append_nameChar _ _ ha1 hs1
  have hv2 : validName (n ++ "-" ++ sfx 0 ++ "-" ++ sfx 1) = true :=
    validName_of_all _ hd2 ha2
  have hd3 : (n ++ "-" ++ sfx 0 ++ "-" ++ sfx 1 ++ "-" ++ sfx 2).data ≠ [] :=
    append_data_ne_nil _ _ hd2
  have ha3 : (n ++ "-" ++ sfx 0 ++ "-" ++ sfx 1 ++ "-" ++ sfx 2).data.all isNameChar = true :=
    all_append_nameChar _ _ ha2 hs2
  have hv3 : validName (n ++ "-" ++ sfx 0 ++ "-" ++ sfx 1 ++ "-" ++ sfx 2) = true :=
    validName_of_all _ hd3 ha3
  have base : validate_name (Except.ok ex) sfx u (some n) 0 = validateGo ex sfx 4 n 0 := by
    simp [validate_name, truthyS, h1, hvn]
  have e4 : validateGo ex sfx 4 n 0 = validateGo ex sfx 3 (n ++ "-" ++ sfx 0) 1 := by
    rw [show (4 : Nat) = 3 + 1 from rfl, validateGo_succ, if_pos hmem,
      if_neg (by omega : ¬ (0 : Nat) ≥ 3)]
    simp [hv1]
  by_cases m1 : n ++ "-" ++ sfx 0 ∈ ex
  · have e3 : validateGo ex sfx 3 (n ++ "-" ++ sfx 0) 1 =
        validateGo ex sfx 2 (n ++ "-" ++ sfx 0 ++ "-" ++ sfx 1) 2 := by
      rw [show (3 : Nat) = 2 + 1 from rfl, validateGo_succ, if_pos m1,
        if_neg (by omega : ¬ (1 : Nat) ≥ 3)]
      simp [hv2]
    by_cases m2 : n ++ "-" ++ sfx 0 ++ "-" ++ sfx 1 ∈ ex
    · have e2 : validateGo ex sfx 2 (n ++ "-" ++ sfx 0 ++ "-" ++ sfx 1) 2 =
          validateGo ex sfx 1 (n ++ "-" ++ sfx 0 ++ "-" ++ sfx 1 ++ "-" ++ sfx 2) 3 := by
        rw [show (2 : Nat) = 1 + 1 from rfl, validateGo_succ, if_pos m2,
          if_neg (by omega : ¬ (2 : Nat) ≥ 3)]
        simp [hv3]
      by_cases m3 : n ++ "-" ++ sfx 0 ++ "-" ++ sfx 1 ++ "-" ++ sfx 2 ∈ ex
      · refine Or.inr (Or.inr (Or.inr ⟨m1, m2, m3, ?_⟩))
        rw [base, e4, e3, e2, show (1 : Nat) = 0 + 1 from rfl, validateGo_succ,
          if_pos m3, if_pos (by omega : (3 : Nat) ≥ 3)]
      · refine Or.inr (Or.inr (Or.inl ⟨m1, m2, m3, ?_⟩))
        rw [base, e4, e3, e2, show (1 : Nat) = 0 + 1 from rfl, validateGo_succ,
          if_neg m3]
    · refine Or.inr (Or.inl ⟨m1, m2, ?_⟩)
      rw [base, e4, e3, show (2 : Nat) = 1 + 1 from rfl, validateGo_succ, if_neg m2]
  · refine Or.inl ⟨m1, ?_⟩
    rw [base, e4, show (3 : Nat) = 2 + 1 from rfl, validateGo_succ, if_neg m1]

/-- C1 witness at a concrete input (first retry succeeds). -/
theorem C1_witness :
    ("nm" ++ "-" ++ "AAAAAA" ∉ ["nm"] ∧
       validate_name (Except.ok ["nm"]) (fun _ => "AAAAAA") "u" (some "nm") 0 =
         NameResult.ok ("nm" ++ "-" ++ "AAAAAA")) ∨
    ("nm" ++ "-" ++ "AAAAAA" ∈ ["nm"] ∧
       "nm" ++ "-" ++ "AAAAAA" ++ "-" ++ "AAAAAA" ∉ ["nm"] ∧
       validate_name (Except.ok ["nm"]) (fun _ => "AAAAAA") "u" (some "nm") 0 =
         NameResult.ok ("nm" ++ "-" ++ "AAAAAA" ++ "-" ++ "AAAAAA")) ∨
    ("nm" ++ "-" ++ "AAAAAA" ∈ ["nm"] ∧
       "nm" ++ "-" ++ "AAAAAA" ++ "-" ++ "AAAAAA" ∈ ["nm"] ∧
       "nm" ++ "-" ++ "AAAAAA" ++ "-" ++ "AAAAAA" ++ "-" ++ "AAAAAA" ∉ ["nm"] ∧
       validate_name (Except.ok ["nm"]) (fun _ => "AAAAAA") "u" (some "nm") 0 =
         NameResult.ok ("nm" ++ "-" ++ "AAAAAA" ++ "-" ++ "AAAAAA" ++ "-" ++ "AAAAAA")) ∨
    ("nm" ++ "-" ++ "AAAAAA" ∈ ["nm"] ∧
       "nm" ++ "-" ++ "AAAAAA" ++ "-" ++ "AAAAAA" ∈ ["nm"] ∧
       "nm" ++ "-" ++ "AAAAAA" ++ "-" ++ "AAAAAA" ++ "-" ++ "AAAAAA" ∈ ["nm"] ∧
       validate_name (Except.ok ["nm"]) (fun _ => "AAAAAA") "u" (some "nm") 0 =
         NameResult.resolutionError) :=
  C1_conflict_retry ["nm"] (fun _ => "AAAAAA") "u" "nm"
    (by decide) (by decide) (by decide)
    (fun _ => ⟨by show ("AAAAAA" : String).length = 6; decide,
               by show ("AAAAAA" : String).data.all suffixChar = true; decide⟩)

/-- C4 counterexample: the quick builder variant performs no name
validation at all (a name with a space is returned suffixed rather than
rejected), and the full variant accepts a name with one trailing newline
because the Python dollar anchor matches before it; both characters are
outside [A-Za-z0-9_-]. -/
theorem C4_counterexample :
    generate_name "u" "AAAAAA" (some "bad name") = "bad name-AAAAAA" ∧
    isNameChar ' ' = false ∧
    validate_name (Except.ok []) (fun _ => "AAAAAA") "u" (some "abc\n") 0 =
      NameResult.ok "abc\n" ∧
    isNameChar '\n' = false := by decide

/-- C4 (amended): in the full builder variant a supplied nonempty name
fails with the invalid-name error, regardless of conflict state and of
whether the provider call would succeed, exactly when it fails the
validation regex; that regex accepts precisely the strings of characters
from [A-Za-z0-9_-], optionally followed by a single trailing newline.
The quick builder variant performs no character validation and always
returns the name with one suffix appended. -/
theorem C4_invalid_name :
    (∀ (li : Except Unit (List String)) (sfx : Nat → String) (u n : String) (att : Nat),
       n ≠ "" → validName n = false →
       validate_name li sfx u (some n) att = NameResult.invalidName) ∧
    (∀ n : String, validName n = true ↔
       ((n.data ≠ [] ∧ n.data.all isNameChar = true) ∨
        (∃ m, n.data = m ++ ['\n'] ∧ m ≠ [] ∧ m.all isNameChar = true))) ∧
    (∀ (u s n : String), n ≠ "" →
       generate_name u s (some n) = n ++ "-" ++ s) := by
  refine ⟨?_, ?_, ?_⟩
  · intro li sfx u n att hn hv
    simp [validate_name, truthyS, hn, hv]
  · intro n
    constructor
    · intro hv
      unfold validName at hv
      by_cases h : n.data.getLast? = some '\n'
      · rw [if_pos h] at hv
        simp only [Bool.and_eq_true, decide_eq_true_eq] at hv
        obtain ⟨m, hm⟩ := (getLast?_eq_some_iff_concat _ _).mp h
        refine Or.inr ⟨m, hm, ?_, ?_⟩
        · have := hv.1
          rw [hm, List.dropLast_concat] at this
          exact this
        · have := hv.2
          rw [hm, List.dropLast_concat] at this
          exact this
      · rw [if_neg h] at hv
        simp only [Bool.and_eq_true, decide_eq_true_eq] at hv
        exact Or.inl hv
    · rintro (⟨hne, hall⟩ | ⟨m, hm, hmne, hmall⟩)
      · exact validName_of_all n hne hall
      · unfold validName
        have h : n.data.getLast? = some '\n' := by
          rw [hm]; exact List.getLast?_concat m
        rw [if_pos h, hm, List.dropLast_concat]
        simp [hmne, hmall]
  · intro u s n hn
    simp [generate_name, truthyS, hn]

/-- C4 witness at a concrete input. -/
theorem C4_witness :
    validate_name (Except.ok ["x"]) (fun _ => "AAAAAA") "u" (some "a!") 0 =
      NameResult.invalidName :=
  C4_invalid_name.1 (Except.ok ["x"]) (fun _ => "AAAAAA") "u" "a!" 0
    (by decide) (by decide)

theorem expandSelection_err (n : Nat) (ts : List (List Char)) :
    exOk (expandSelection n ts) = false ↔
      ∃ t ∈ ts, exOk (tokenIndices n t) = false := by
  induction ts with
  | nil => simp [expandSelection, exOk]
  | cons t ts ih =>
    simp only [expandSelection]
    cases h : tokenIndices n t with
    | error e =>
      simp only [exOk]
      constructor
      · intro _
        exact ⟨t, by simp, by simp [h, exOk]⟩
      · intro _
        trivial
    | ok here =>
      cases h2 : expandSelection n ts with
      | error e =>
        simp only [exOk]
        constructor
        · intro _
          obtain ⟨u, hu, hbad⟩ := ih.mp (by simp [h2, exOk])
          exact ⟨u, by simp [hu], hbad⟩
        · intro _
          trivial
      | ok rest =>
        simp only [exOk]
        constructor
        · intro hfalse
          exact absurd hfalse (by simp)
        · rintro ⟨u, hu, hbad⟩
          rcases List.mem_cons.mp hu with rfl | hu2
          · rw [h] at hbad
            exact absurd hbad (by simp [exOk])
          · have := ih.mpr ⟨u, hu2, hbad⟩
            rw [h2] at this
            exact absurd this (by simp [exOk])

/-- C3: the selection core expands single indices and inclusive ranges
into a duplicate-free index set, returns the selected candidates in
ascending index order, and fails exactly when a token is rejected
(malformed or out of [1, n]) or the expanded index count is below the
minimum; the concrete vectors of the claim evaluate as stated. -/
theorem C3_select :
    (select_resources ["c1", "c2", "c3", "c4", "c5", "c6", "c7", "c8", "c9", "c10"]
        2 "1,3-5" = Except.ok ["c1", "c3", "c4", "c5"] ∧
     exOk (select_resources ["c1", "c2", "c3", "c4", "c5"] 3 "1,2") = false ∧
     exOk (select_resources ["c1", "c2", "c3", "c4", "c5"] 1 "0") = false ∧
     exOk (select_resources ["c1", "c2", "c3", "c4", "c5"] 1 "6") = false) ∧
    (∀ (items : List String) (m : Nat) (sel : String) (r : List String),
       select_resources items m sel = Except.ok r →
       ∃ idxs : List Nat, List.Pairwise (· < ·) idxs ∧ m ≤ idxs.length ∧
         (∀ i ∈ idxs, 1 ≤ i ∧ i ≤ items.length) ∧
         r = idxs.map (fun i => items.getD (i - 1) "")) ∧
    (∀ (items : List String) (m : Nat) (sel : String),
       exOk (select_resources items m sel) = false ↔
         ((∃ t ∈ chSplit ',' sel.data, exOk (tokenIndices items.length t) = false) ∨
          (∃ l, expandSelection items.length (chSplit ',' sel.data) = Except.ok l ∧
             ((List.range' 1 items.length).filter (fun i => l.contains i)).length < m))) := by
  refine ⟨⟨by rfl, by rfl, by rfl, by rfl⟩, ?_, ?_⟩
  · intro items m sel r hr
    unfold select_resources at hr
    split at hr
    · simp at hr
    · rename_i l heq
      split at hr
      · simp at hr
      · rename_i hlen
        refine ⟨(List.range' 1 items.length).filter (fun i => l.contains i),
          List.Pairwise.filter _ (List.pairwise_lt_range' 1 items.length), by omega,
          ?_, (Except.ok.inj hr).symm⟩
        intro i hi
        have hmem := (List.mem_filter.mp hi).1
        have := List.mem_range'_1.mp hmem
        omega
  · intro items m sel
    cases hexp : expandSelection items.length (chSplit ',' sel.data) with
    | error e =>
      have hred : select_resources items m sel = Except.error e := by
        unfold select_resources
        rw [hexp]
      rw [hred]
      constructor
      · intro _
        exact Or.inl ((expandSelection_err _ _).mp (by simp [hexp, exOk]))
      · intro _
        trivial
    | ok l =>
      have hnobad : ¬ ∃ t ∈ chSplit ',' sel.data,
          exOk (tokenIndices items.length t) = false := by
        intro hbad
        have := (expandSelection_err _ _).mpr hbad
        rw [hexp] at this
        exact absurd this (by simp [exOk])
      by_cases hlen :
          ((List.range' 1 items.length).filter (fun i => l.contains i)).length < m
      · have hred : select_resources items m sel = Except.error "below minimum count" := by
          unfold select_resources
          rw [hexp]
          exact if_pos hlen
        rw [hred]
        constructor
        · intro _
          exact Or.inr ⟨l, rfl, hlen⟩
        · intro _
          trivial
      · have hred : select_resources items m sel =
            Except.ok (((List.range' 1 items.length).filter
              (fun i => l.contains i)).map (fun i => items.getD (i - 1) "")) := by
          unfold select_resources
          rw [hexp]
          exact if_neg hlen
        rw [hred]
        constructor
        · intro hfalse
          exact absurd hfalse (by simp [exOk])
        · rintro (hbad | ⟨l2, hl2, hlen2⟩)
          · exact absurd hbad hnobad
          · rw [← Except.ok.inj hl2] at hlen2
            exact absurd hlen2 hlen

/-- C3 witness at a concrete input. -/
theorem C3_witness :
    ∃ idxs : List Nat, List.Pairwise (· < ·) idxs ∧ 1 ≤ idxs.length ∧
      (∀ i ∈ idxs, 1 ≤ i ∧ i ≤ (["a", "b", "c"] : List String).length) ∧
      ["b", "c"] = idxs.map (fun i => (["a", "b", "c"] : List String).getD (i - 1) "") :=
  C3_select.2.1 ["a", "b", "c"] 1 "2-3" ["b", "c"] (by rfl)

/-- C2: with source type AWS_VPC, three caller subnets of which exactly
two are in the account inventory, a valid existing sg-prefixed security
group and a nonempty role ARN, the full builder selects exactly the two
valid subnets in caller order, attaches the given security group, sets
InputNetworkLocation to AWS, populates the VPC security configuration,
and triggers no interactive prompt. -/
theorem C2_vpc_happy_path (env : Env) (args : Args) (subs : List String)
    (g r nm : String) (tf : Option (List (String × String)))
    (hsrc : args.source_type = SourceType.AWS_VPC)
    (hsubs : args.subnets = some subs)
    (hlen : subs.length = 3)
    (hvalid : (subs.filter (fun s => s ∈ env.availSubnets)).length = 2)
    (hsg : args.security_group = some g)
    (hpre : sStarts g "sg-" = true)
    (hmem : g ∈ env.availSGs)
    (hrole : args.role_arn = some r)
    (hr : r ≠ "")
    (hname : validate_name env.listInputs env.suffixes env.freshUuid args.name 0 =
      NameResult.ok nm)
    (htags : tagsField args.tags = Except.ok tf) :
    ∃ req : InputRequest,
      create_rtmp_input_full env args = Except.ok (req, []) ∧
      req.name = nm ∧
      req.inputNetworkLocation = "AWS" ∧
      req.vpc = some { subnetIds := subs.filter (fun s => s ∈ env.availSubnets),
                       securityGroupIds := [g] } ∧
      req.roleArn = some r ∧
      req.inputSecurityGroups = none := by
  have hgne : g ≠ "" := by
    intro hg
    rw [hg] at hpre
    exact absurd hpre (by decide)
  have hne : subs ≠ [] := by
    intro h
    rw [h] at hlen
    simp at hlen
  have htake : (subs.filter (fun s => s ∈ env.availSubnets)).take 2 =
      subs.filter (fun s => s ∈ env.availSubnets) :=
    List.take_of_length_le (by omega)
  have hsubnets : vpcSubnetsFull env.availSubnets args.subnets env.oracleSubnets =
      (subs.filter (fun s => s ∈ env.availSubnets), []) := by
    rw [hsubs]
    simp [vpcSubnetsFull, truthyL, hne, hlen, hvalid, htake]
  have hsgpart : vpcSGFull env.availSGs args.security_group env.oracleSG =
      Except.ok ([g], []) := by
    rw [hsg]
    simp [vpcSGFull, truthyS, hgne, hpre, hmem]
  have hrolepart : vpcRoleFull args.role_arn env.oracleRole = (r, []) := by
    rw [hrole]
    simp [vpcRoleFull, truthyS, hr]
  refine ⟨{ name := nm, type := "RTMP_PUSH", inputNetworkLocation := "AWS",
            destinations :=
              if truthyS args.app_name && truthyS args.app_instance then
                mkDestinations args.app_name args.app_instance
                  args.secondary_app_name args.secondary_app_instance
              else [],
            inputSecurityGroups := none,
            vpc := some { subnetIds := subs.filter (fun s => s ∈ env.availSubnets),
                          securityGroupIds := [g] },
            roleArn := some r,
            tags := tf }, ?_, rfl, rfl, rfl, rfl, rfl⟩
  simp [create_rtmp_input_full, hname, hsrc, hsubnets, hsgpart, hrolepart, htags]

/-- C2 witness at a concrete input. -/
theorem C2_witness :
    ∃ req : InputRequest,
      create_rtmp_input_full envW argsC2 = Except.ok (req, []) ∧
      req.name = "rtmp-input-u" ∧
      req.inputNetworkLocation = "AWS" ∧
      req.vpc = some { subnetIds := ["s-1", "s-2", "s-3"].filter
                         (fun s => s ∈ envW.availSubnets),
                       securityGroupIds := ["sg-1"] } ∧
      req.roleArn = some "r" ∧
      req.inputSecurityGroups = none :=
  C2_vpc_happy_path envW argsC2 ["s-1", "s-2", "s-3"] "sg-1" "r" "rtmp-input-u" none
    rfl rfl (by decide) (by decide) rfl (by decide) (by decide) rfl (by decide)
    (by decide) rfl

/-- C6 counterexample: with no caller-supplied security group neither
variant requires an interactive selection — the full variant resolves to
no security group with no prompt event, and the quick variant likewise
builds the VPC request without a security group and without prompting —
refuting the claimed divergence. -/
theorem C6_counterexample :
    vpcSGFull ["sg-a"] none "picked" = Except.ok ([], []) ∧
    create_rtmp_input_quick envW argsC6 =
      Except.ok ({ name := "rtmp-input-u", type := "RTMP_PUSH",
                   inputNetworkLocation := "AWS",
                   destinations := [{ streamName := "a/b" }, { streamName := "a/b" }],
                   inputSecurityGroups := none,
                   vpc := some { subnetIds := ["s1", "s2"], securityGroupIds := [] },
                   roleArn := none, tags := none }, []) := ⟨rfl, rfl⟩

/-- C6 (amended): with no caller-supplied security group both builder
variants proceed without any security group in the VPC configuration and
neither triggers an interactive selection; when a supplied sg-prefixed ID
is not in the account inventory the full variant warns and requires an
interactive selection, while the quick variant attaches any supplied
truthy value unchecked. -/
theorem C6_vpc_sg_divergence :
    (∀ (availSGs : List String) (oracle : String),
       vpcSGFull availSGs none oracle = Except.ok ([], [])) ∧
    (∀ (availSGs : List String) (g oracle : String),
       sStarts g "sg-" = true → g ∉ availSGs → availSGs ≠ [] →
       vpcSGFull availSGs (some g) oracle = Except.ok ([oracle], [Event.prompt])) ∧
    (∀ (env : Env) (args : Args) (tf : Option (List (String × String))),
       args.source_type = SourceType.AWS_VPC →
       args.security_group = none →
       truthyL args.subnets = true → 2 ≤ (args.subnets.getD []).length →
       tagsField args.tags = Except.ok tf →
       ∃ req, create_rtmp_input_quick env args = Except.ok (req, []) ∧
         req.vpc = some { subnetIds := (args.subnets.getD []).take 2,
                          securityGroupIds := [] }) ∧
    (∀ (env : Env) (args : Args) (g : String) (tf : Option (List (String × String))),
       args.source_type = SourceType.AWS_VPC →
       args.security_group = some g → g ≠ "" →
       truthyL args.subnets = true → 2 ≤ (args.subnets.getD []).length →
       tagsField args.tags = Except.ok tf →
       ∃ req, create_rtmp_input_quick env args = Except.ok (req, []) ∧
         req.vpc = some { subnetIds := (args.subnets.getD []).take 2,
                          securityGroupIds := [g] }) := by
  refine ⟨?_, ?_, ?_, ?_⟩
  · intro availSGs oracle
    simp [vpcSGFull, truthyS]
  · intro availSGs g oracle hpre hmem hne
    have hgne : g ≠ "" := by
      intro hg
      rw [hg] at hpre
      exact absurd hpre (by decide)
    simp [vpcSGFull, truthyS, hgne, hpre, hmem, hne]
  · intro env args tf hsrc hsg hsubT hsublen htags
    have hguard : ¬ (truthyL args.subnets = false ∨
        (args.subnets.getD []).length < 2) := by
      rintro (h | h)
      · rw [hsubT] at h
        cases h
      · omega
    refine ⟨{ name := generate_name env.freshUuid (env.suffixes 0) args.name,
              type := "RTMP_PUSH", inputNetworkLocation := "AWS",
              destinations := mkDestinations args.app_name args.app_instance
                args.secondary_app_name args.secondary_app_instance,
              inputSecurityGroups := none,
              vpc := some { subnetIds := (args.subnets.getD []).take 2,
                            securityGroupIds := [] },
              roleArn := args.role_arn,
              tags := tf }, ?_, rfl⟩
    simp [create_rtmp_input_quick, hsrc, hsg, hguard, truthyS, htags]
  · intro env args g tf hsrc hsg hgne hsubT hsublen htags
    have hguard : ¬ (truthyL args.subnets = false ∨
        (args.subnets.getD []).length < 2) := by
      rintro (h | h)
      · rw [hsubT] at h
        cases h
      · omega
    refine ⟨{ name := generate_name env.freshUuid (env.suffixes 0) args.name,
              type := "RTMP_PUSH", inputNetworkLocation := "AWS",
              destinations := mkDestinations args.app_name args.app_instance
                args.secondary_app_name args.secondary_app_instance,
              inputSecurityGroups := none,
              vpc := some { subnetIds := (args.subnets.getD []).take 2,
                            securityGroupIds := [g] },
              roleArn := args.role_arn,
              tags := tf }, ?_, rfl⟩
    simp [create_rtmp_input_quick, hsrc, hsg, hguard, truthyS, hgne, htags]

/-- C6 witness at a concrete input. -/
theorem C6_witness :
    vpcSGFull ["sg-a"] (some "sg-zz") "orc" =
      Except.ok (["orc"], [Event.prompt]) :=
  C6_vpc_sg_divergence.2.1 ["sg-a"] "sg-zz" "orc" (by decide) (by decide) (by decide)

theorem vpcSubnetsFull_events (availSubnets : List String)
    (argSubnets : Option (List String)) (oracleSubnets : List String) :
    ∀ e ∈ (vpcSubnetsFull availSubnets argSubnets oracleSubnets).2,
      e = Event.prompt := by
  intro e he
  unfold vpcSubnetsFull at he
  split at he
  · split at he
    · simp at he
    · split at he
      · simp at he
      · simp at he
        exact he
  · split at he
    · simp at he
    · simp at he
      exact he

theorem vpcSGFull_events (availSGs : List String) (argSG : Option String)
    (oracleSG : String) (res : List String × List Event)
    (h : vpcSGFull availSGs argSG oracleSG = Except.ok res) :
    ∀ e ∈ res.2, e = Event.prompt := by
  unfold vpcSGFull at h
  split at h
  · split at h
    · obtain rfl := Except.ok.inj h
      intro e he
      simp at he
    · split at h
      · simp at h
      · obtain rfl := Except.ok.inj h
        intro e he
        simp at he
        exact he
  · obtain rfl := Except.ok.inj h
    intro e he
    simp at he

theorem vpcRoleFull_events (argRole : Option String) (oracleRole : String) :
    ∀ e ∈ (vpcRoleFull argRole oracleRole).2, e = Event.prompt := by
  intro e he
  unfold vpcRoleFull at he
  split at he
  · simp at he
  · simp at he
    exact he

theorem onPremNetworkFull_events (networks : List String)
    (argNetwork : Option String) (oracleChoice : String)
    (createdNetwork : Option String) (res : Option String × List Event)
    (h : onPremNetworkFull networks argNetwork oracleChoice createdNetwork =
      Except.ok res) :
    ∀ e ∈ res.2, e = Event.prompt := by
  unfold onPremNetworkFull at h
  split at h
  · obtain rfl := Except.ok.inj h
    intro e he
    simp at he
  · split at h
    · split at h
      · obtain rfl := Except.ok.inj h
        intro e he
        simp at he
        subst he
        rfl
      · split at h
        · split at h
          · obtain rfl := Except.ok.inj h
            intro e he
            simp at he
            exact he
          · simp at h
        · simp at h
    · obtain rfl := Except.ok.inj h
      intro e he
      simp at he
      exact he

theorem interactiveSGPick_tagged (mlSGs : List String) (c cid nid : String)
    (res : List String × List Event)
    (h : interactiveSGPick mlSGs c cid nid = Except.ok res) :
    ∀ e ∈ res.2, eventSGTagged e = true := by
  unfold interactiveSGPick at h
  split at h
  · split at h
    · obtain rfl := Except.ok.inj h
      intro e he
      simp at he
      rcases he with rfl | rfl | rfl <;> rfl
    · split at h
      · split at h
        · obtain rfl := Except.ok.inj h
          intro e he
          simp at he
          subst he
          rfl
        · simp at h
      · simp at h
  · obtain rfl := Except.ok.inj h
    intro e he
    simp at he
    rcases he with rfl | rfl <;> rfl

theorem awsBranchFull_tagged (mlSGs : List String) (cidrOk : String → Bool)
    (argSG : Option String) (c cid nid : String)
    (res : List String × List Event)
    (h : awsBranchFull mlSGs cidrOk argSG c cid nid = Except.ok res) :
    ∀ e ∈ res.2, eventSGTagged e = true := by
  unfold awsBranchFull at h
  split at h
  · obtain rfl := Except.ok.inj h
    intro e he
    simp at he
    subst he
    rfl
  · split at h
    · split at h
      · obtain rfl := Except.ok.inj h
        intro e he
        simp at he
      · exact interactiveSGPick_tagged _ _ _ _ _ h
    · exact interactiveSGPick_tagged _ _ _ _ _ h

/-- C8: on every success path of either builder variant, every
create_input_security_group call in the run trace carries the
AutoCreated=True tag. -/
theorem C8_autocreated_tag :
    (∀ (env : Env) (args : Args) (req : InputRequest) (evs : List Event),
       create_rtmp_input_full env args = Except.ok (req, evs) →
       ∀ e ∈ evs, eventSGTagged e = true) ∧
    (∀ (env : Env) (args : Args) (req : InputRequest) (evs : List Event),
       create_rtmp_input_quick env args = Except.ok (req, evs) →
       ∀ e ∈ evs, eventSGTagged e = true) := by
  constructor
  · intro env args req evs h e he
    cases hv : validate_name env.listInputs env.suffixes env.freshUuid args.name 0 with
    | invalidName => simp [create_rtmp_input_full, hv] at h
    | resolutionError => simp [create_rtmp_input_full, hv] at h
    | ok nm =>
      cases hst : args.source_type with
      | AWS =>
        cases hb : awsBranchFull env.mlSGs env.cidrOk args.security_group
            env.oracleChoice env.oracleCidr env.newSGId with
        | error err => simp [create_rtmp_input_full, hv, hst, hb] at h
        | ok sgPart =>
          cases ht : tagsField args.tags with
          | error u => simp [create_rtmp_input_full, hv, hst, hb, ht] at h
          | ok tf =>
            simp [create_rtmp_input_full, hv, hst, hb, ht] at h
            rw [← h.2] at he
            exact awsBranchFull_tagged _ _ _ _ _ _ _ hb e he
      | AWS_VPC =>
        cases hb : vpcSGFull env.availSGs args.security_group env.oracleSG with
        | error err => simp [create_rtmp_input_full, hv, hst, hb] at h
        | ok sgPart =>
          cases ht : tagsField args.tags with
          | error u => simp [create_rtmp_input_full, hv, hst, hb, ht] at h
          | ok tf =>
            simp [create_rtmp_input_full, hv, hst, hb, ht] at h
            rw [← h.2] at he
            rcases List.mem_append.mp he with hsubn | he2
            · rw [vpcSubnetsFull_events env.availSubnets args.subnets
                env.oracleSubnets e hsubn]
              rfl
            · rcases List.mem_append.mp he2 with hsg | hrole
              · rw [vpcSGFull_events _ _ _ _ hb e hsg]
                rfl
              · rw [vpcRoleFull_events args.role_arn env.oracleRole e hrole]
                rfl
      | ON_PREMISES =>
        cases hb : onPremNetworkFull env.networks args.network env.oracleChoice
            env.createdNetwork with
        | error err => simp [create_rtmp_input_full, hv, hst, hb] at h
        | ok netPart =>
          by_cases hn : truthyS netPart.1 = true
          · cases ht : tagsField args.tags with
            | error u => simp [create_rtmp_input_full, hv, hst, hb, hn, ht] at h
            | ok tf =>
              simp [create_rtmp_input_full, hv, hst, hb, hn, ht] at h
              rw [← h.2] at he
              rw [onPremNetworkFull_events _ _ _ _ _ hb e he]
              rfl
          · simp [create_rtmp_input_full, hv, hst, hb, hn] at h
  · intro env args req evs h e he
    cases ht : tagsField args.tags with
    | error u => simp [create_rtmp_input_quick, ht] at h
    | ok tf =>
      cases hst : args.source_type with
      | AWS =>
        by_cases hsg : (truthyS args.security_group &&
            sStarts (args.security_group.getD "") "sg-") = true
        · simp [create_rtmp_input_quick, hst, hsg, ht] at h
          rw [h.2] at he
          simp at he
        · simp [create_rtmp_input_quick, hst, hsg, ht] at h
          rw [← h.2] at he
          simp at he
          subst he
          rfl
      | AWS_VPC =>
        by_cases hguard : (truthyL args.subnets = false ∨
            (args.subnets.getD []).length < 2)
        · simp [create_rtmp_input_quick, hst, hguard, ht] at h
        · simp [create_rtmp_input_quick, hst, hguard, ht] at h
          rw [h.2] at he
          simp at he
      | ON_PREMISES =>
        cases hnet : (if truthyS args.network then Except.ok (args.network.getD "")
            else env.createNetworkQuick) with
        | error u => simp [create_rtmp_input_quick, hst, hnet, ht] at h
        | ok nid =>
          simp [create_rtmp_input_quick, hst, hnet, ht] at h
          rw [h.2] at he
          simp at he

/-- C8 witness at a concrete input. -/
theorem C8_witness :
    eventSGTagged (Event.createSG ["0.0.0.0/0"] [("AutoCreated", "True")]) = true :=
  C8_autocreated_tag.2 envW argsC8 reqC8
    [Event.createSG ["0.0.0.0/0"] [("AutoCreated", "True")]] rfl
    (Event.createSG ["0.0.0.0/0"] [("AutoCreated", "True")]) (by simp)

/-- C9: the tag comprehension is not lenient.  Its clauses nest left to
right, so the unpacking of the equals-split runs before the equals-sign
guard and a token lacking an equals sign raises ValueError, aborting the
run in both builder variants.  On the claim text vector both builders
fail instead of silently dropping the NoEquals token; with that token
removed the split is at the first equals sign as the claim describes. -/
theorem C9_tag_unpack_raises :
    parseTagsE ["Key=Value", "NoEquals", "A=B=C"] = Except.error () ∧
    parseTagsE ["Key=Value", "A=B=C"] =
      Except.ok [("Key", "Value"), ("A", "B=C")] ∧
    create_rtmp_input_full envW argsC9full = Except.error BuildError.fatal ∧
    create_rtmp_input_quick envW argsC9quick = Except.error BuildError.fatal :=
  ⟨rfl, rfl, rfl, rfl⟩

/-- C10: in the quick builder variant with source type AWS and no
security-group value supplied at all, a new input security group
whitelisting 0.0.0.0/0 is created and attached to the request. -/
theorem C10_quick_default_sg (env : Env) (args : Args)
    (tf : Option (List (String × String)))
    (hsrc : args.source_type = SourceType.AWS)
    (hsg : args.security_group = none)
    (htags : tagsField args.tags = Except.ok tf) :
    ∃ req, create_rtmp_input_quick env args =
        Except.ok (req, [Event.createSG ["0.0.0.0/0"] [("AutoCreated", "True")]]) ∧
      req.inputSecurityGroups = some [env.newSGId] := by
  refine ⟨{ name := generate_name env.freshUuid (env.suffixes 0) args.name,
            type := "RTMP_PUSH", inputNetworkLocation := "AWS",
            destinations := mkDestinations args.app_name args.app_instance
              args.secondary_app_name args.secondary_app_instance,
            inputSecurityGroups := some [env.newSGId], vpc := none, roleArn := none,
            tags := tf }, ?_, rfl⟩
  simp [create_rtmp_input_quick, hsrc, hsg, truthyS, htags]

/-- C10 witness at a concrete input. -/
theorem C10_witness :
    ∃ req, create_rtmp_input_quick envW argsC8 =
        Except.ok (req, [Event.createSG ["0.0.0.0/0"] [("AutoCreated", "True")]]) ∧
      req.inputSecurityGroups = some [envW.newSGId] :=
  C10_quick_default_sg envW argsC8 none rfl rfl rfl
